import Mathlib

/-!
Shallow embedding of the infrastructure stack defined in
`src/lib/infra-stack.ts` (repository `ecs-fargate-rds`).

The stack is a single linear construction sequence over the AWS CDK: a VPC,
a security group for compute tasks, an ECS Fargate cluster/task/service, an
internet-facing application load balancer with one listener, an RDS Postgres
instance, and two stack outputs.  Synthesis of the stack is modelled as a pure
function from its fixed literal parameters to a `Template` value listing the
declared resources, including the side effects the framework performs while
wiring the load balancer to the service and the compute security group to the
database.
-/

namespace EcsFargateRds

/-- Subnet tiers used by the stack (`ec2.SubnetType` values appearing in the
source: `PUBLIC` and `PRIVATE_WITH_EGRESS`). -/
inductive SubnetType where
  | publicTier
  | privateWithEgress
  deriving DecidableEq, Repr

/-- One entry of the VPC `subnetConfiguration`
(src/lib/infra-stack.ts lines 18-29). -/
structure SubnetConfig where
  cidrMask : Nat
  name : String
  subnetType : SubnetType
  deriving DecidableEq, Repr

/-- Properties passed to the `ec2.Vpc` construct
(src/lib/infra-stack.ts lines 15-30). -/
structure VpcProps where
  maxAzs : Nat
  natGateways : Nat
  subnetConfiguration : List SubnetConfig
  deriving DecidableEq, Repr

/-- A subnet in the synthesized template: the VPC construct creates one subnet
per (configuration entry, availability zone) pair. -/
structure Subnet where
  groupName : String
  az : Nat
  tier : SubnetType
  deriving DecidableEq, Repr

/-- A synthesized virtual network: its subnets and its NAT gateway count. -/
structure SynthVpc where
  subnets : List Subnet
  natGatewayCount : Nat
  deriving DecidableEq, Repr

/-- Synthesis of the VPC construct: for each entry of `subnetConfiguration`
one subnet per availability zone `0 .. maxAzs-1`, and `natGateways` shared NAT
gateways (the source fixes `natGateways: 1`). -/
def synthVpc (p : VpcProps) : SynthVpc :=
  { subnets :=
      p.subnetConfiguration.flatMap fun c =>
        (List.range p.maxAzs).map fun az =>
          { groupName := c.name, az := az, tier := c.subnetType }
    natGatewayCount := p.natGateways }

/-- A peer of a security-group rule: either any IPv4 address or another
security group, identified by its construct id. -/
inductive Peer where
  | anyIpv4
  | sg (id : String)
  deriving DecidableEq, Repr

/-- Connection protocols occurring in the stack. -/
inductive IpProtocol where
  | tcp
  | allTraffic
  deriving DecidableEq, Repr

/-- A single ingress or egress rule of a security group. -/
structure SgRule where
  peer : Peer
  protocol : IpProtocol
  fromPort : Nat
  toPort : Nat
  deriving DecidableEq, Repr

/-- A security group in the synthesized template. -/
structure SecurityGroup where
  id : String
  description : String
  allowAllOutbound : Bool
  ingress : List SgRule
  egress : List SgRule
  deriving DecidableEq, Repr

/-- Construction of a security group: with `allowAllOutbound` the framework
emits a single all-traffic egress rule to any IPv4 address; no ingress rule
exists until one is added explicitly or by attaching a load-balancer target. -/
def mkSecurityGroup (id description : String) (allowAllOutbound : Bool) :
    SecurityGroup :=
  { id := id
    description := description
    allowAllOutbound := allowAllOutbound
    ingress := []
    egress :=
      if allowAllOutbound then
        [{ peer := Peer.anyIpv4, protocol := IpProtocol.allTraffic,
           fromPort := 0, toPort := 65535 }]
      else [] }

/-- A container port mapping (src/lib/infra-stack.ts lines 58-61). -/
structure PortMapping where
  containerPort : Nat
  protocol : IpProtocol
  deriving DecidableEq, Repr

/-- The awslogs log-driver configuration (src/lib/infra-stack.ts line 56). -/
structure AwsLogDriver where
  streamPrefix : String
  deriving DecidableEq, Repr

/-- A container added to the task definition
(src/lib/infra-stack.ts lines 54-61). -/
structure ContainerDefinition where
  name : String
  image : String
  logging : AwsLogDriver
  portMappings : List PortMapping
  deriving DecidableEq, Repr

/-- The Fargate task definition (src/lib/infra-stack.ts lines 48-51). -/
structure FargateTaskDefinition where
  memoryLimitMiB : Nat
  cpu : Nat
  containers : List ContainerDefinition
  deriving DecidableEq, Repr

/-- The load-balancer attachment recorded on the ECS service when it is used
as a target group target: the framework registers the task definition's
default container under its declared container port. -/
structure LoadBalancerAttachment where
  containerName : String
  containerPort : Nat
  targetGroupId : String
  deriving DecidableEq, Repr

/-- The Fargate service (src/lib/infra-stack.ts lines 64-71), together with
the load-balancer attachments added when `listener.addTargets` runs. -/
structure FargateService where
  clusterId : String
  securityGroups : List String
  assignPublicIp : Bool
  desiredCount : Nat
  subnetType : SubnetType
  loadBalancers : List LoadBalancerAttachment
  deriving DecidableEq, Repr

/-- The application load balancer (src/lib/infra-stack.ts lines 74-77).
An internet-facing load balancer is placed in the public subnet tier. -/
structure ApplicationLoadBalancer where
  internetFacing : Bool
  subnetType : SubnetType
  securityGroupId : String
  deriving DecidableEq, Repr

/-- The target group created by `listener.addTargets`
(src/lib/infra-stack.ts lines 83-86).  For a Fargate service the target type
is `ip`: each task registers under the container port recorded on the
service's load-balancer attachment, not under the group's declared port. -/
structure ApplicationTargetGroup where
  id : String
  port : Nat
  deriving DecidableEq, Repr

/-- The listener added to the load balancer
(src/lib/infra-stack.ts lines 80-82) with its default forwarding target. -/
structure ApplicationListener where
  port : Nat
  defaultTargetGroupId : String
  deriving DecidableEq, Repr

/-- Database credentials as declared in the source: an auto-generated secret
for the named admin user (src/lib/infra-stack.ts line 103). -/
inductive Credentials where
  | fromGeneratedSecret (username : String)
  deriving DecidableEq, Repr

/-- The RDS database instance (src/lib/infra-stack.ts lines 94-109). -/
structure DatabaseInstance where
  engine : String
  engineVersion : String
  instanceType : String
  subnetType : SubnetType
  credentials : Credentials
  multiAz : Bool
  allocatedStorage : Nat
  maxAllocatedStorage : Nat
  deletionProtection : Bool
  backupRetentionDays : Nat
  securityGroupId : String
  port : Nat
  deriving DecidableEq, Repr

/-- The value referenced by a stack output. -/
inductive OutputValue where
  | loadBalancerDnsName
  | dbInstanceEndpointAddress
  deriving DecidableEq, Repr

/-- A CloudFormation output declared by the stack. -/
structure CfnOutput where
  id : String
  value : OutputValue
  deriving DecidableEq, Repr

/-- The synthesized deployment template: every resource the stack declares. -/
structure Template where
  vpcs : List SynthVpc
  securityGroups : List SecurityGroup
  clusters : List String
  taskDefinitions : List FargateTaskDefinition
  services : List FargateService
  loadBalancers : List ApplicationLoadBalancer
  listeners : List ApplicationListener
  targetGroups : List ApplicationTargetGroup
  dbInstances : List DatabaseInstance
  outputs : List CfnOutput
  deriving DecidableEq, Repr

/-- The fixed literal parameters of the stack definition, exactly the numeric
literals appearing in `src/lib/infra-stack.ts`. -/
structure InfraProps where
  maxAzs : Nat
  natGateways : Nat
  memoryLimitMiB : Nat
  cpu : Nat
  containerPort : Nat
  desiredCount : Nat
  listenerPort : Nat
  allocatedStorage : Nat
  maxAllocatedStorage : Nat
  backupRetentionDays : Nat
  dbPort : Nat
  deriving DecidableEq, Repr

/-- The literals fixed by the source (src/lib/infra-stack.ts). -/
def infraProps : InfraProps :=
  { maxAzs := 2
    natGateways := 1
    memoryLimitMiB := 512
    cpu := 256
    containerPort := 5001
    desiredCount := 1
    listenerPort := 80
    allocatedStorage := 20
    maxAllocatedStorage := 100
    backupRetentionDays := 7
    dbPort := 5432 }

/-- Synthesis of the stack `InfraStack` (src/lib/infra-stack.ts lines 10-120),
following the source's construction sequence.  Mutations the framework
performs on already-constructed resources (`listener.addTargets` registering
the service and opening the container port on the compute security group,
`dbInstance.connections.allowFrom` adding the database ingress rule) are
modelled by rebinding the affected value. -/
def synthInfraStack (p : InfraProps) : Template :=
  -- lines 15-30: VPC with public and egress-capable private subnet tiers
  let vpc : SynthVpc := synthVpc
    { maxAzs := p.maxAzs
      natGateways := p.natGateways
      subnetConfiguration :=
        [ { cidrMask := 24, name := "publicSubnet",
            subnetType := SubnetType.publicTier },
          { cidrMask := 24, name := "privateSubnet",
            subnetType := SubnetType.privateWithEgress } ] }
  -- lines 33-37: security group for the ECS tasks
  let ecsSecurityGroup : SecurityGroup :=
    mkSecurityGroup "ECSSecurityGroup" "Allow internal traffic to ECS Service"
      true
  -- line 40: reference to the existing ECR repository (referenced, not created)
  let repositoryName : String := "teju-ecr"
  -- lines 43-45: ECS cluster
  let clusterId : String := "MyCluster"
  -- lines 48-61: task definition and its container
  let container : ContainerDefinition :=
    { name := "MyContainer"
      image := repositoryName
      logging := { streamPrefix := "MyApp" }
      portMappings :=
        [{ containerPort := p.containerPort, protocol := IpProtocol.tcp }] }
  let taskDefinition : FargateTaskDefinition :=
    { memoryLimitMiB := p.memoryLimitMiB, cpu := p.cpu,
      containers := [container] }
  -- lines 64-71: Fargate service in the private subnet tier
  let service : FargateService :=
    { clusterId := clusterId
      securityGroups := [ecsSecurityGroup.id]
      assignPublicIp := false
      desiredCount := p.desiredCount
      subnetType := SubnetType.privateWithEgress
      loadBalancers := [] }
  -- lines 74-77: internet-facing load balancer; the framework creates its
  -- security group and places the load balancer in the public tier
  let lbSecurityGroup : SecurityGroup :=
    mkSecurityGroup "MyALBSecurityGroup"
      "Automatically created Security Group for ELB" false
  let lb : ApplicationLoadBalancer :=
    { internetFacing := true
      subnetType := SubnetType.publicTier
      securityGroupId := lbSecurityGroup.id }
  -- lines 80-86: listener with a target group forwarding to the service;
  -- the service registers its default container under the container port,
  -- and the framework opens that port from the load balancer's security
  -- group to the service's security group
  let targetGroup : ApplicationTargetGroup :=
    { id := "MyFargateService", port := p.listenerPort }
  let listener : ApplicationListener :=
    { port := p.listenerPort, defaultTargetGroupId := targetGroup.id }
  let service : FargateService :=
    { service with
        loadBalancers :=
          [ { containerName := container.name
              containerPort := p.containerPort
              targetGroupId := targetGroup.id } ] }
  let ecsSecurityGroup : SecurityGroup :=
    { ecsSecurityGroup with
        ingress := ecsSecurityGroup.ingress ++
          [ { peer := Peer.sg lbSecurityGroup.id, protocol := IpProtocol.tcp,
              fromPort := p.containerPort, toPort := p.containerPort } ] }
  let lbSecurityGroup : SecurityGroup :=
    { lbSecurityGroup with
        egress := lbSecurityGroup.egress ++
          [ { peer := Peer.sg ecsSecurityGroup.id, protocol := IpProtocol.tcp,
              fromPort := p.containerPort, toPort := p.containerPort } ] }
  -- lines 94-109: RDS Postgres instance in the private tier; the framework
  -- creates its security group (all outbound allowed, no ingress yet)
  let dbSecurityGroup : SecurityGroup :=
    mkSecurityGroup "MyDatabaseSecurityGroup"
      "Security group for MyDatabase database" true
  let dbInstance : DatabaseInstance :=
    { engine := "postgres"
      engineVersion := "13.13"
      instanceType := "t3.micro"
      subnetType := SubnetType.privateWithEgress
      credentials := Credentials.fromGeneratedSecret "myadmin"
      multiAz := false
      allocatedStorage := p.allocatedStorage
      maxAllocatedStorage := p.maxAllocatedStorage
      deletionProtection := false
      backupRetentionDays := p.backupRetentionDays
      securityGroupId := dbSecurityGroup.id
      port := 5432 }
  -- line 116: allow the ECS security group to reach the database on TCP 5432
  let dbSecurityGroup : SecurityGroup :=
    { dbSecurityGroup with
        ingress := dbSecurityGroup.ingress ++
          [ { peer := Peer.sg ecsSecurityGroup.id, protocol := IpProtocol.tcp,
              fromPort := p.dbPort, toPort := p.dbPort } ] }
  -- lines 89-91 and 112-114: the two stack outputs, in declaration order
  { vpcs := [vpc]
    securityGroups := [ecsSecurityGroup, lbSecurityGroup, dbSecurityGroup]
    clusters := [clusterId]
    taskDefinitions := [taskDefinition]
    services := [service]
    loadBalancers := [lb]
    listeners := [listener]
    targetGroups := [targetGroup]
    dbInstances := [dbInstance]
    outputs :=
      [ { id := "LoadBalancerDNS", value := OutputValue.loadBalancerDnsName },
        { id := "DatabaseEndpoint",
          value := OutputValue.dbInstanceEndpointAddress } ] }

/-- The template synthesized from the stack definition with its fixed
literals. -/
def infraStack : Template := synthInfraStack infraProps

/-- Whether an explicit teardown of the definition deletes a database
instance without a further operator override: the control plane refuses to
delete an instance whose deletion protection is enabled, and deleting such an
instance first requires the operator to disable that flag. -/
def teardownDeletes (db : DatabaseInstance) : Bool :=
  !db.deletionProtection

/-- C1: in the synthesized template the security group protecting the database
instance has exactly one inbound rule, permitting TCP 5432 from the compute
tasks' security group (the single group attached to the Fargate service), and
no other inbound rule exists on that boundary. -/
theorem db_sg_single_inbound_from_ecs :
    infraStack.dbInstances.map DatabaseInstance.securityGroupId =
      ["MyDatabaseSecurityGroup"] ∧
    infraStack.services.map FargateService.securityGroups =
      [["ECSSecurityGroup"]] ∧
    (infraStack.securityGroups.filter fun g =>
        g.id == "MyDatabaseSecurityGroup").map SecurityGroup.ingress =
      [[{ peer := Peer.sg "ECSSecurityGroup", protocol := IpProtocol.tcp,
          fromPort := 5432, toPort := 5432 }]] := by
  decide

/-- C2: the compute service and the database instance are placed only in the
egress-capable private subnet tier, and the load balancer only in the public
tier. -/
theorem placement_tiers :
    infraStack.services.map FargateService.subnetType =
      [SubnetType.privateWithEgress] ∧
    infraStack.dbInstances.map DatabaseInstance.subnetType =
      [SubnetType.privateWithEgress] ∧
    infraStack.loadBalancers.map ApplicationLoadBalancer.subnetType =
      [SubnetType.publicTier] := by
  decide

/-- C3: the security group attached to the compute tasks allows all outbound
traffic (one all-traffic egress rule to any IPv4 address), and its only
ingress rule admits traffic from the load balancer's security group on the
service's container port. -/
theorem ecs_sg_outbound_and_lb_inbound :
    infraStack.services.map FargateService.securityGroups =
      [["ECSSecurityGroup"]] ∧
    infraStack.loadBalancers.map ApplicationLoadBalancer.securityGroupId =
      ["MyALBSecurityGroup"] ∧
    (infraStack.securityGroups.filter fun g =>
        g.id == "ECSSecurityGroup").map
        (fun g => (g.allowAllOutbound, g.egress, g.ingress)) =
      [(true,
        [{ peer := Peer.anyIpv4, protocol := IpProtocol.allTraffic,
           fromPort := 0, toPort := 65535 }],
        [{ peer := Peer.sg "MyALBSecurityGroup", protocol := IpProtocol.tcp,
           fromPort := 5001, toPort := 5001 }])] := by
  decide

/-- C4: the template contains exactly one virtual network spanning the two
availability zones 0 and 1, with one public and one egress-capable private
subnet per zone and a single NAT gateway. -/
theorem network_shape :
    infraStack.vpcs.map SynthVpc.natGatewayCount = [1] ∧
    infraStack.vpcs.map SynthVpc.subnets =
      [[{ groupName := "publicSubnet", az := 0,
          tier := SubnetType.publicTier },
        { groupName := "publicSubnet", az := 1,
          tier := SubnetType.publicTier },
        { groupName := "privateSubnet", az := 0,
          tier := SubnetType.privateWithEgress },
        { groupName := "privateSubnet", az := 1,
          tier := SubnetType.privateWithEgress }]] := by
  decide

/-- C5: the port at which the listener's forwarding rule targets the compute
service (the container port recorded on the service's load-balancer
attachment for the listener's target group) equals the port mapping declared
on the task definition's container; every attachment matches some declared
port mapping of the like-named container. -/
theorem forwarded_port_matches_container_port :
    infraStack.listeners.map ApplicationListener.defaultTargetGroupId =
      ["MyFargateService"] ∧
    infraStack.services.map FargateService.loadBalancers =
      [[{ containerName := "MyContainer", containerPort := 5001,
          targetGroupId := "MyFargateService" }]] ∧
    infraStack.taskDefinitions.map
        (fun td => td.containers.map fun c =>
          (c.name, c.portMappings.map PortMapping.containerPort)) =
      [[("MyContainer", [5001])]] ∧
    (infraStack.services.all fun s => s.loadBalancers.all fun a =>
      infraStack.taskDefinitions.all fun td => td.containers.all fun c =>
        c.name != a.containerName ||
          c.portMappings.any fun m =>
            m.containerPort == a.containerPort) = true := by
  decide

/-- C6: synthesis is deterministic; any two synthesis runs of the stack
definition from the same fixed literals produce the same template. -/
theorem synthesis_deterministic (p : InfraProps) (t₁ t₂ : Template)
    (h₁ : t₁ = synthInfraStack p) (h₂ : t₂ = synthInfraStack p) : t₁ = t₂ :=
  h₁.trans h₂.symm

/-- Witness for C6 at the stack's fixed literals. -/
theorem synthesis_deterministic_witness :
    synthInfraStack infraProps = synthInfraStack infraProps :=
  synthesis_deterministic infraProps (synthInfraStack infraProps)
    (synthInfraStack infraProps) rfl rfl

/-- C7: the template declares exactly one database instance; it is
single-instance (not multi-AZ), uses a generated credential secret for the
admin user, allocates 20 GiB with autoscaling bounded by 100 GiB, and keeps
backups for 7 days. -/
theorem database_config :
    infraStack.dbInstances =
      [{ engine := "postgres", engineVersion := "13.13",
         instanceType := "t3.micro",
         subnetType := SubnetType.privateWithEgress,
         credentials := Credentials.fromGeneratedSecret "myadmin",
         multiAz := false, allocatedStorage := 20, maxAllocatedStorage := 100,
         deletionProtection := false, backupRetentionDays := 7,
         securityGroupId := "MyDatabaseSecurityGroup", port := 5432 }] := by
  decide

/-- C8: the template surfaces exactly two operator outputs, the load
balancer's DNS name and the database instance's endpoint address, in that
order. -/
theorem outputs_exactly_two :
    infraStack.outputs =
      [{ id := "LoadBalancerDNS",
         value := OutputValue.loadBalancerDnsName },
       { id := "DatabaseEndpoint",
         value := OutputValue.dbInstanceEndpointAddress }] := by
  decide

/-- C9: every compute service in the template is configured without a public
IP address. -/
theorem tasks_no_public_ip :
    infraStack.services.map FargateService.assignPublicIp = [false] := by
  decide

/-- C10: the database instance is declared with deletion protection disabled,
so a teardown of the definition deletes it without a further operator
override. -/
theorem db_deletable_on_teardown :
    infraStack.dbInstances.map DatabaseInstance.deletionProtection =
      [false] ∧
    infraStack.dbInstances.map teardownDeletes = [true] := by
  decide

end EcsFargateRds
